import Mathlib

/-
Verification of the SSE client (aiohttp_sse_client.py) against its
natural-language specification.  The Python module is shallowly embedded:
the parser scratch state becomes an explicit record, the per-line field
parser and the blank-line dispatch become pure state-transformers, the
line tokenization of the response body (the underlying stream reader
splits on LF, each line is then right-stripped of LF and CR) becomes a
pure function on character lists, and the header construction of the
connect procedure becomes a pure function on association lists.
-/

namespace SSE

def READY_STATE_CONNECTING : Nat := 0

def READY_STATE_OPEN : Nat := 1

def READY_STATE_CLOSED : Nat := 2

/-- Default reconnection time: `timedelta(seconds=5)`, modelled in milliseconds. -/
def DEFAULT_RECONNECTION_TIME_MS : Int := 5000

def CONTENT_TYPE_EVENT_STREAM : String := "text/event-stream"

/-- Embeds the frozen `MessageEvent` attrs class (source lines 23-34).
`type` is `Option String` because the source stores `None` when the
event type buffer is empty at dispatch. `origin` is `Option String`
because `self._origin` is initialised to `None`. -/
structure MessageEvent where
  type : Option String
  message : String
  data : String
  origin : Option String
  last_event_id : String
deriving DecidableEq

/-- The mutable fields of `EventSource` that the parser and the connect
procedure read or write (source lines 63-81): ready state, reconnection
time (milliseconds), the committed last event id, the three scratch
buffers, and the connection origin. -/
structure EventSourceState where
  ready_state : Nat
  reconnection_time : Int
  last_event_id : String
  event_id : String
  event_type : String
  event_data : String
  origin : Option String
deriving DecidableEq

/-- The state right after `EventSource.__init__` (no connect yet):
ready state CONNECTING, default reconnection time, empty id and
scratch buffers, no origin. -/
def init_state : EventSourceState :=
  { ready_state := READY_STATE_CONNECTING
    reconnection_time := DEFAULT_RECONNECTION_TIME_MS
    last_event_id := ""
    event_id := ""
    event_type := ""
    event_data := ""
    origin := none }

/-- Python `str.rstrip(c)` on one character: remove every trailing
occurrence of `c`. -/
def rstrip_chars (l : List Char) (c : Char) : List Char :=
  ((l.reverse).dropWhile (fun x => x == c)).reverse

/-- `str.rstrip(c)` lifted to `String`. -/
def rstrip_str (s : String) (c : Char) : String :=
  String.mk (rstrip_chars s.data c)

/-- Python `str.lstrip(' ')`: remove every leading space (and only
spaces), as done on the field value in `__anext__` (source line 146). -/
def lstrip_spaces (s : String) : String :=
  String.mk (s.data.dropWhile (fun x => x == ' '))

/-- Digit value of an ASCII digit character. -/
def py_digit_val (c : Char) : Nat := c.toNat - 48

/-- Remaining digits of a Python integer literal: a single underscore
may separate two digits, anything else is a parse failure. -/
def py_digits_rest : Nat → List Char → Option Nat
  | acc, [] => some acc
  | acc, '_' :: c :: rest =>
    if c.isDigit then py_digits_rest (acc * 10 + py_digit_val c) rest else none
  | _, ['_'] => none
  | acc, c :: rest =>
    if c.isDigit then py_digits_rest (acc * 10 + py_digit_val c) rest else none

/-- A nonempty digit run (with optional single underscores between
digits). -/
def py_digits : List Char → Option Nat
  | [] => none
  | c :: rest => if c.isDigit then py_digits_rest (py_digit_val c) rest else none

/-- The whitespace characters that Python's `int` strips around a
numeric string (ASCII subset). -/
def is_py_space (c : Char) : Bool :=
  c == ' ' || c == '\t' || c == '\n' || c == '\r' || c == '\x0b' || c == '\x0c'

/-- Models Python's built-in `int(str)` conversion (restricted to ASCII
input), as invoked by the `retry` field handler: optional surrounding
whitespace, an optional sign, then a nonempty ASCII digit run where a
single underscore may separate two digits; `none` models `ValueError`. -/
def py_int (s : String) : Option Int :=
  match ((s.data.dropWhile is_py_space).reverse.dropWhile is_py_space).reverse with
  | '+' :: rest => (py_digits rest).map (fun n => (n : Int))
  | '-' :: rest => (py_digits rest).map (fun n => -(n : Int))
  | rest => (py_digits rest).map (fun n => (n : Int))

/-- Embeds `EventSource._process_field` (source lines 222-243): `event`
overwrites the type buffer, `data` appends the value plus a newline to
the data buffer, `id` overwrites the id scratch buffer, `retry` updates
the reconnection time when the value parses as an integer and is
otherwise ignored (`ValueError` caught); any other field is ignored. -/
def process_field (s : EventSourceState) (field_name field_value : String) :
    EventSourceState :=
  if field_name = "event" then
    { s with event_type := field_value }
  else if field_name = "data" then
    { s with event_data := s.event_data ++ field_value ++ "\n" }
  else if field_name = "id" then
    { s with event_id := field_value }
  else if field_name = "retry" then
    match py_int field_value with
    | some n => { s with reconnection_time := n }
    | none => s
  else
    s

/-- Embeds `EventSource._dispatch_event` (source lines 198-220): commit
`last_event_id := event_id` unconditionally; if the data buffer is empty
reset the type buffer and emit nothing; otherwise strip the trailing
newlines with `rstrip('\n')`, build the `MessageEvent` (with `None` for
an empty type buffer and the raw type buffer as `message`), and reset
the type and data buffers. The id scratch buffer is never touched. -/
def dispatch_event (s : EventSourceState) : Option MessageEvent × EventSourceState :=
  let s1 : EventSourceState := { s with last_event_id := s.event_id }
  if s1.event_data = "" then
    (none, { s1 with event_type := "" })
  else
    (some { type := if s1.event_type ≠ "" then some s1.event_type else none
            message := s1.event_type
            data := rstrip_str s1.event_data '\n'
            origin := s1.origin
            last_event_id := s1.last_event_id },
     { s1 with event_type := "", event_data := "" })

/-- Embeds the per-line body of `EventSource.__anext__` (source lines
131-149), applied to a line already stripped of its terminator: a blank
line dispatches; a line starting with `:` is a comment; a line with a
colon is split on the first colon, the value is `lstrip`ped of spaces;
a line without a colon is a field name with empty value. -/
def process_line (s : EventSourceState) (line : String) :
    Option MessageEvent × EventSourceState :=
  if line = "" then
    dispatch_event s
  else if line.data.head? = some ':' then
    (none, s)
  else if line.data.contains ':' then
    (none, process_field s (String.mk (line.data.takeWhile (fun x => x != ':')))
      (lstrip_spaces (String.mk ((line.data.dropWhile (fun x => x != ':')).tail))))
  else
    (none, process_field s line "")

/-- One call of `EventSource.__anext__` on the remaining lines of the
current response body: consume lines until a dispatch emits an event and
return it with the successor state and the unconsumed lines; at stream
end (no lines left) the `async for` loop finishes and the method falls
through, returning no event and leaving the state untouched — there is
no reconnect logic in the source. -/
def anext_loop : EventSourceState → List String → Option MessageEvent × EventSourceState × List String
  | s, [] => (none, s, [])
  | s, line :: rest =>
    match process_line s line with
    | (some e, s1) => (some e, s1, rest)
    | (none, s1) => anext_loop s1 rest

/-- Repeated iteration over a whole (finite) connection body: every
event emitted, in order, with the final state. -/
def process_lines : EventSourceState → List String → List MessageEvent × EventSourceState
  | s, [] => ([], s)
  | s, line :: rest =>
    match process_line s line with
    | (some e, s1) =>
      let r := process_lines s1 rest
      (e :: r.1, r.2)
    | (none, s1) => process_lines s1 rest

/-- The line splitting performed by the stream reader that `__anext__`
iterates (source lines 126-127): lines are cut after each LF only (the
source comment: the reader "only split line by \n"); a final chunk with
no terminator is still yielded. Each yielded chunk keeps its LF. -/
def split_lines : List Char → List (List Char)
  | [] => []
  | c :: cs =>
    if c = '\n' then
      ['\n'] :: split_lines cs
    else
      match split_lines cs with
      | [] => [[c]]
      | l :: ls => (c :: l) :: ls

/-- The per-line stripping of `__anext__` (source line 129):
`line.rstrip('\n').rstrip('\r')`. -/
def strip_line (l : List Char) : List Char :=
  rstrip_chars (rstrip_chars l '\n') '\r'

/-- The tokenization the source applies to a response body: reader
line splitting on LF followed by the terminator stripping. -/
def tokenize (s : String) : List String :=
  (split_lines s.data).map (fun l => String.mk (strip_line l))

/-- Follows the spec's words, for comparison with `split_lines`: split
the stream into logical lines terminated by CR, LF, or CRLF (each of
the three forms delimits a line), yielding the lines without their
terminators. -/
def spec_split_lines : List Char → List (List Char)
  | [] => []
  | '\r' :: '\n' :: rest => [] :: spec_split_lines rest
  | '\r' :: rest => [] :: spec_split_lines rest
  | '\n' :: rest => [] :: spec_split_lines rest
  | c :: rest =>
    match spec_split_lines rest with
    | [] => [[c]]
    | l :: ls => (c :: l) :: ls

/-- The spec's tokenizer contract lifted to `String`. -/
def spec_tokenize (s : String) : List String :=
  (spec_split_lines s.data).map String.mk

/-- Concatenate lines, terminating each with an LF. -/
def join_lines : List (List Char) → List Char
  | [] => []
  | l :: ls => l ++ '\n' :: join_lines ls

/-- `MultiDict` deletion of a key. -/
def remove_key (h : List (String × String)) (k : String) : List (String × String) :=
  h.filter (fun p => p.1 != k)

/-- `MultiDict.__setitem__`: replace the first occurrence of the key in
place and drop later duplicates, else append. -/
def set_header : List (String × String) → String → String → List (String × String)
  | [], k, v => [(k, v)]
  | (k1, v1) :: rest, k, v =>
    if k1 = k then (k, v) :: remove_key rest k
    else (k1, v1) :: set_header rest k v

/-- Embeds the header construction of `EventSource._connect` (source
lines 154-170): set `Accept`, then unconditionally set the (misspelled)
`Last-Event_ID` header to the current last event id, then set
`Cache-Control`. These are the headers the GET request is issued with. -/
def request_headers (headers : List (String × String)) (last_event_id : String) :
    List (String × String) :=
  set_header
    (set_header (set_header headers "Accept" CONTENT_TYPE_EVENT_STREAM)
      "Last-Event_ID" last_event_id)
    "Cache-Control" "no-cache"

/-- Python dict lookup; `none` models a `KeyError`. -/
def lookup_key {α : Type} (d : List (String × α)) (k : String) : Option α :=
  (d.find? (fun p => p.1 == k)).map (fun p => p.2)

/-- Embeds `self._kwargs = kwargs or {'headers': MultiDict()}` (source
line 74): a falsy (empty) kwargs dict is replaced by a fresh dict whose
only key is `headers`; a non-empty kwargs dict is kept as is. -/
def init_kwargs {α : Type} (d : α) (kwargs : List (String × α)) :
    List (String × α) :=
  match kwargs with
  | [] => [("headers", d)]
  | _ :: _ => kwargs

/-- The first statement of `_connect` (source line 154): look up
`self._kwargs['headers']`, before any request is issued; `none` models
the `KeyError`. -/
def connect_headers_of {α : Type} (kwargs : List (String × α)) : Option α :=
  lookup_key kwargs "headers"

/-- A mid-block parser state: one data line has been accumulated and no
event type has been set. -/
def mid_event_state : EventSourceState := { init_state with event_data := "x\n" }

/-- The event the source dispatches from `mid_event_state`. -/
def default_type_event : MessageEvent :=
  { type := none, message := "", data := "x", origin := none, last_event_id := "" }

/-- Claim C1: the source's `__anext__` has no reconnect path at all.
When the current connection's stream reaches EOF (no lines remain) and
the state is not CLOSED, `__anext__` simply finishes: it yields no
event and leaves every state field (ready state, reconnection time,
last event id) untouched — it neither waits `reconnectionTime` nor
re-runs the connect procedure, so iteration ends on a single
connection's EOF. -/
theorem anext_eof_no_reconnect (s : EventSourceState)
    (h : s.ready_state ≠ READY_STATE_CLOSED) :
    anext_loop s [] = (none, s, []) ∧
    (anext_loop s []).2.1.ready_state ≠ READY_STATE_CLOSED :=
  ⟨rfl, h⟩

/-- Witness for C1 at the freshly initialised state. -/
theorem anext_eof_no_reconnect_witness :
    anext_loop init_state [] = (none, init_state, []) ∧
    (anext_loop init_state []).2.1.ready_state ≠ READY_STATE_CLOSED :=
  anext_eof_no_reconnect init_state (by decide)

/-- Claim C2, evaluated on the code: the round-trip instance of the
claim holds (feeding `event: foo`, `data: a`, `data: b`, `id: 42`,
blank yields exactly one event with type `foo`, data `a\nb`, id `42`),
but the universal part fails: for the well-formed single-event input
`data: a`, `data:`, blank, the accumulated data is `a\n\n`, the claim
demands `a\n` (join of the values `a` and the empty value minus one
trailing newline), yet the code's `rstrip('\n')` removes every trailing
newline and emits `a`. -/
theorem single_event_join_strip_eval :
    (process_lines init_state (tokenize "event: foo\ndata: a\ndata: b\nid: 42\n\n")).1 =
      [{ type := some "foo", message := "foo", data := "a\nb", origin := none,
         last_event_id := "42" }] ∧
    (process_lines init_state (tokenize "data: a\ndata:\n\n")).1 =
      [{ type := none, message := "", data := "a", origin := none,
         last_event_id := "" }] ∧
    ("a" : String) ≠ "a\n" := by
  decide

/-- Claim C3, evaluated on the code: dispatching with accumulated data
`a\n\n` (e.g. a data line followed by an empty data field) emits data
`a`, not the `a\n` the claim requires — `rstrip('\n')` strips all
trailing newlines, not exactly one. -/
theorem dispatch_rstrip_all_eval :
    (dispatch_event { init_state with event_data := "a\n\n" }).1 =
      some { type := none, message := "", data := "a", origin := none,
             last_event_id := "" } ∧
    ("a" : String) ≠ "a\n" := by
  decide

/-- Claim C4, evaluated on the code: for the line `data:  x` (two
spaces after the colon) the code's `lstrip(' ')` strips both leading
spaces, accumulating `x\n`, whereas the claim requires exactly one
space stripped, i.e. ` x\n`. -/
theorem field_value_lstrip_all_eval :
    (process_line init_state "data:  x").2.event_data = "x\n" ∧
    ("x\n" : String) ≠ " x\n" := by
  decide

/-- Claim C5, evaluated on the code: on a connect with empty
`lastEventId` and the default empty header dict, the request headers do
contain `Accept: text/event-stream` and `Cache-Control: no-cache`, but
the code also unconditionally sends the misspelled header
`Last-Event_ID` with the empty value, and no header named
`Last-Event-ID` is ever set. -/
theorem connect_headers_eval :
    request_headers [] "" =
      [("Accept", "text/event-stream"), ("Last-Event_ID", ""),
       ("Cache-Control", "no-cache")] ∧
    lookup_key (request_headers [] "") "Last-Event-ID" = none ∧
    lookup_key (request_headers [] "") "Last-Event_ID" = some "" := by
  decide

/-- Claim C6: after every dispatch (emitting or not), the committed
`last_event_id` equals the id scratch buffer, the type and data buffers
are empty, and the id scratch buffer itself is unchanged, so a later
block without an `id` field inherits it. -/
theorem dispatch_commit_reset_invariant (s : EventSourceState) :
    (dispatch_event s).2.last_event_id = s.event_id ∧
    (dispatch_event s).2.event_type = "" ∧
    (dispatch_event s).2.event_data = "" ∧
    (dispatch_event s).2.event_id = s.event_id := by
  by_cases h : s.event_data = "" <;> simp [dispatch_event, h]

/-- Claim C7: processing a `retry` field sets the reconnection time to
the parsed integer when the value parses and leaves the whole state
unchanged otherwise; processing never fails (`process_field` is total).
In particular `retry: 3000` sets 3000 ms and `retry: notanumber`
changes nothing. -/
theorem retry_updates_reconnection_time (s : EventSourceState) (v : String) :
    (process_field s "retry" v).reconnection_time =
      (py_int v).getD s.reconnection_time ∧
    (process_field s "retry" "3000").reconnection_time = 3000 ∧
    process_field s "retry" "notanumber" = s := by
  refine ⟨?_, rfl, rfl⟩
  have hp : process_field s "retry" v =
      (match py_int v with
       | some n => { s with reconnection_time := n }
       | none => s) := rfl
  rw [hp]
  cases py_int v <;> rfl

theorem rstrip_chars_append (l : List Char) (c : Char) :
    rstrip_chars (l ++ [c]) c = rstrip_chars l c := by
  simp [rstrip_chars, List.dropWhile]

theorem rstrip_chars_eq_self {l : List Char} {c : Char} (h : c ∉ l) :
    rstrip_chars l c = l := by
  unfold rstrip_chars
  cases hr : l.reverse with
  | nil =>
    have : l = [] := by simpa using congrArg List.reverse hr
    simp [this]
  | cons a t =>
    have ha : a ∈ l := by
      rw [← List.mem_reverse, hr]; exact List.mem_cons_self a t
    have hac : (a == c) = false := by
      simp only [beq_eq_false_iff_ne]
      intro he; exact h (he ▸ ha)
    have : (a :: t).dropWhile (fun x => x == c) = a :: t := by
      simp [List.dropWhile, hac]
    rw [this, ← hr, List.reverse_reverse]

theorem split_lines_append {l : List Char} (rest : List Char) (h : '\n' ∉ l) :
    split_lines (l ++ '\n' :: rest) = (l ++ ['\n']) :: split_lines rest := by
  induction l with
  | nil => simp [split_lines]
  | cons a t ih =>
    have ha : ¬a = '\n' := by
      intro he; exact h (he ▸ List.mem_cons_self a t)
    have ht : '\n' ∉ t := fun hm => h (List.mem_cons_of_mem a hm)
    rw [List.cons_append]
    simp only [split_lines, if_neg ha, ih ht, List.cons_append]

theorem strip_line_newline {l : List Char} (h : '\n' ∉ l) :
    strip_line (l ++ ['\n']) = rstrip_chars l '\r' := by
  unfold strip_line
  rw [rstrip_chars_append, rstrip_chars_eq_self h]

/-- Claim C8 counterexample: the source tokenization does not treat a
lone CR as a line terminator. On the stream `a CR b LF` the source
yields the single line `a CR b`, while the spec's CR/LF/CRLF splitting
yields the two lines `a` and `b`. -/
theorem tokenize_cr_not_line_break :
    tokenize "a\rb\n" = ["a\rb"] ∧
    spec_tokenize "a\rb\n" = ["a", "b"] ∧
    tokenize "a\rb\n" ≠ spec_tokenize "a\rb\n" := by
  decide

/-- Claim C8 amended: the tokenization splits on LF only; every
LF-terminated line is yielded with its LF stripped and then every
trailing CR stripped (so CRLF-terminated lines are handled), while a CR
alone does not end a line and stays inside it. -/
theorem tokenize_splits_on_lf (ls : List (List Char))
    (h : ∀ l ∈ ls, '\n' ∉ l) :
    (split_lines (join_lines ls)).map strip_line =
      ls.map (fun l => rstrip_chars l '\r') := by
  induction ls with
  | nil => rfl
  | cons l t ih =>
    have hl : '\n' ∉ l := h l (List.mem_cons_self l t)
    have ht : ∀ x ∈ t, '\n' ∉ x := fun x hx => h x (List.mem_cons_of_mem l hx)
    simp only [join_lines]
    rw [split_lines_append _ hl]
    simp only [List.map]
    rw [strip_line_newline hl, ih ht]

/-- Witness for the amended C8: the two-line stream `a CR LF b LF`
tokenizes to `a` and `b` (the CRLF terminator is fully consumed). -/
theorem tokenize_splits_on_lf_witness :
    (split_lines (join_lines [['a', '\r'], ['b']])).map strip_line =
      [['a', '\r'], ['b']].map (fun l => rstrip_chars l '\r') :=
  tokenize_splits_on_lf [['a', '\r'], ['b']] (by decide)

/-- Claim C9: when the `EventSource` is constructed with a non-empty
set of extra keyword arguments that has no `headers` key, the default
headers dict is not installed (it is installed only for empty kwargs),
so the `kwargs['headers']` lookup that `_connect` performs first — before
issuing any request — raises `KeyError` (modelled by `none`). -/
theorem kwargs_headers_keyerror {α : Type} (d : α)
    (kwargs : List (String × α)) (h1 : kwargs ≠ [])
    (h2 : lookup_key kwargs "headers" = none) :
    init_kwargs d kwargs = kwargs ∧
    connect_headers_of (init_kwargs d kwargs) = none ∧
    init_kwargs d ([] : List (String × α)) = [("headers", d)] := by
  have he : init_kwargs d kwargs = kwargs := by
    cases kwargs with
    | nil => exact absurd rfl h1
    | cons a t => rfl
  refine ⟨he, ?_, rfl⟩
  unfold connect_headers_of
  rw [he]
  exact h2

/-- Witness for C9: kwargs holding only a `params` key. -/
theorem kwargs_headers_keyerror_witness :
    init_kwargs (0 : Nat) [("params", 1)] = [("params", 1)] ∧
    connect_headers_of (init_kwargs (0 : Nat) [("params", 1)]) = none ∧
    init_kwargs (0 : Nat) ([] : List (String × Nat)) = [("headers", 0)] :=
  kwargs_headers_keyerror 0 [("params", 1)] (by decide) (by decide)

/-- Claim C10: an emitted event has `type = None` exactly when the type
buffer is empty at dispatch, and its `message` field is always the raw
pre-reset type buffer; moreover only an `event` field writes the type
buffer (`event` sets it to the field value, every other field leaves it
unchanged), so a default event is distinguishable from one whose type
is literally `message`. -/
theorem message_type_distinguishes_default (s : EventSourceState)
    (e : MessageEvent) (s2 : EventSourceState)
    (h : dispatch_event s = (some e, s2)) :
    (e.type = none ↔ s.event_type = "") ∧
    e.message = s.event_type ∧
    (∀ name value : String,
      name ≠ "event" → (process_field s name value).event_type = s.event_type) ∧
    (∀ value : String, (process_field s "event" value).event_type = value) := by
  by_cases hd : s.event_data = ""
  · simp [dispatch_event, hd] at h
  · rw [show dispatch_event s =
        (some { type := if s.event_type ≠ "" then some s.event_type else none
                message := s.event_type
                data := rstrip_str s.event_data '\n'
                origin := s.origin
                last_event_id := s.event_id },
         { s with last_event_id := s.event_id, event_type := "",
                  event_data := "" }) from by simp [dispatch_event, hd]] at h
    obtain ⟨he, -⟩ := Prod.mk.injEq .. ▸ h
    rw [Option.some.injEq] at he
    subst he
    refine ⟨?_, rfl, ?_, fun value => rfl⟩
    · by_cases ht : s.event_type = "" <;> simp [ht]
    · intro name value hne
      simp only [process_field, if_neg hne]
      split
      · rfl
      split
      · rfl
      split
      · split <;> rfl
      · rfl

/-- Witness for C10 at a state holding one data line and no type. -/
theorem message_type_distinguishes_default_witness :
    default_type_event.type = none ∧
    default_type_event.message = mid_event_state.event_type ∧
    (process_field mid_event_state "data" "y").event_type =
      mid_event_state.event_type ∧
    (process_field mid_event_state "event" "foo").event_type = "foo" := by
  have h := message_type_distinguishes_default mid_event_state
    default_type_event init_state (by decide)
  exact ⟨h.1.mpr rfl, h.2.1, h.2.2.1 "data" "y" (by decide), h.2.2.2 "foo"⟩

end SSE
